import Mathlib

/-!
Shallow embedding of the STUN connectivity probe (src/main.go) and proofs of
the specification's claims about it.

The program probes a list of STUN servers over UDP and over TCP: it builds one
binding request per transport run, sends it to every server of that
transport's configured list, receives and decodes the response, and records a
per-server outcome.  External effects (the OS socket layer, DNS resolution
results, the black-box STUN codec, and the clock) are modelled as environment
oracles; the control flow, the per-server step ordering, the error branches
and the deferred connection closes are translated from the Go source.  Each
run returns the value the Go function returns (an error or the outcome batch)
together with a trace of observable events, on which the temporal claims are
stated.
-/

namespace NatTest

/-- Go errors carry only a message for our purposes. -/
abbrev GoError := String

/-- Whether an Except value is the ok branch, as a Bool. -/
def exceptOk {α : Type} : Except GoError α → Bool
  | .ok _ => true
  | .error _ => false

/-- An IP address, tagged with its family; the payload is its textual form. -/
inductive IPAddr
  | v4 (a : String)
  | v6 (a : String)
deriving DecidableEq, Repr

/-- Whether the address is an IPv4 address. -/
def IPAddr.isV4 : IPAddr → Bool
  | .v4 _ => true
  | .v6 _ => false

/-- Textual form of the address, as net.UDPAddr.String / net.TCPAddr.String
would render the resolved address. -/
def IPAddr.render : IPAddr → String
  | .v4 a => a
  | .v6 a => a

/-- Whether Go's Resolve*Addr with the given network string admits an address
of the given family: a network ending in "4" keeps only IPv4, one ending in
"6" keeps only IPv6, and the bare networks "udp"/"tcp" admit both families. -/
def familyAllowed (network : String) (a : IPAddr) : Bool :=
  if network = "udp4" || network = "tcp4" then a.isV4
  else if network = "udp6" || network = "tcp6" then !a.isV4
  else true

/-- Resolution of a host:port string under a DNS oracle: Go's
net.ResolveUDPAddr / net.ResolveTCPAddr filter the resolved candidates by the
network's address family and return the first admissible one; none models the
error return. -/
def resolveAddr (dns : String → List IPAddr) (network url : String) :
    Option IPAddr :=
  ((dns url).filter (familyAllowed network)).head?

/-- Class of a STUN message, as stun.MessageType.Class. -/
inductive MessageClass
  | request
  | indication
  | successResponse
  | errorResponse
deriving DecidableEq, Repr

/-- A STUN transaction ID (12 bytes in the wire format). -/
abbrev TID := List Nat

/-- A decoded STUN message as the black-box codec exposes it: its class, its
transaction ID, and the XOR-mapped-address attribute when one is extractable
(stun.XORMappedAddress.GetFrom succeeds exactly when xorAddr is some). -/
structure Message where
  typeClass : MessageClass
  transactionID : TID
  xorAddr : Option String
deriving DecidableEq, Repr

/-- Modelled from the spec: the STUNResponse record (the ProbeOutcome of the
spec) is defined in a repository file that is not under src/; only its
constructor NewSTUNResponse and its four fields assigned by main.go are
visible.  Per the spec's data model, queriedEndpoint is always present and the
other three fields are present only once the corresponding step succeeded. -/
structure STUNResponse where
  stunServerURL : String
  stunServerAddr : Option String := none
  bindResponseAddr : Option String := none
  timeToBindResponse : Option Int := none
deriving DecidableEq, Repr

/-- Modelled from the spec: NewSTUNResponse records the queried endpoint and
leaves every other field unset. -/
def NewSTUNResponse (url : String) : STUNResponse :=
  { stunServerURL := url }

/-- The receive buffer size used by both transports (rawResponse is
make([]byte, 2000)). -/
def bufferSize : Nat := 2000

/-- The receive buffer after a read that placed the given bytes at its front:
the read data truncated to the buffer size, followed by the untouched
zero-initialised tail.  Its length is always bufferSize. -/
def fillBuffer (data : List Nat) : List Nat :=
  data.take bufferSize ++ List.replicate (bufferSize - data.length) 0

/-- Observable events of a transport run, in program order. -/
inductive Event
  | listenUDP
  | closeUDP
  | setDeadline (d : Int)
  | buildRequest (tid : TID)
  | dial (i : Nat) (url : String)
  | setReadDeadline (i : Nat) (d : Int)
  | send (i : Nat) (payload : List Nat)
  | recv (i : Nat)
  | decodeCall (i : Nat) (buf : List Nat)
  | closeConn (i : Nat)
  | logWarn (msg : String)
  | logError (i : Nat) (msg : String)
deriving DecidableEq, Repr

/-- Environment oracle for the UDP run: results of the OS, DNS, codec and
clock interactions, per loop index where the source consults them per
server. -/
structure UDPEnv where
  listenResult : Except GoError Unit
  now : Int
  setDeadlineResult : Except GoError Unit
  buildResult : Except GoError TID
  marshalResult : TID → Except GoError (List Nat)
  dns : String → List IPAddr
  writeResult : Nat → Except GoError Nat
  readResult : Nat → Except GoError (Nat × String × List Nat)
  decode : List Nat → Except GoError Message
  elapsed : Nat → Int

/-- One iteration of the UDP loop body (main.go lines 71-132): resolve the
URL with network "udp4", write the serialized request, read into the
2000-byte buffer (discarding the returned byte count and source address),
decode the whole buffer, accept only a success-response class with an
extractable address and a matching transaction ID. -/
def udpProbeStep (env : UDPEnv) (reqTID : TID) (reqRaw : List Nat)
    (i : Nat) (url : String) : STUNResponse × List Event :=
  let r0 := NewSTUNResponse url
  match resolveAddr env.dns "udp4" url with
  | none => (r0, [.logError i "Error resolving URL to a UDP address"])
  | some udpAddr =>
    let r1 := { r0 with stunServerAddr := some udpAddr.render }
    match env.writeResult i with
    | .error _ => (r1, [.send i reqRaw, .logError i "Error writing to conn"])
    | .ok n =>
      if n ≠ reqRaw.length then
        (r1, [.send i reqRaw, .logError i "Only wrote part of bind request"])
      else
        match env.readResult i with
        | .error _ =>
          (r1, [.send i reqRaw, .recv i, .logError i "Error reading from conn"])
        | .ok (_n, _src, data) =>
          let buf := fillBuffer data
          let evs : List Event := [.send i reqRaw, .recv i, .decodeCall i buf]
          match env.decode buf with
          | .error _ =>
            (r1, evs ++ [.logError i "Error decoding STUN message"])
          | .ok response =>
            match response.typeClass with
            | .successResponse =>
              match response.xorAddr with
              | none =>
                (r1, evs ++
                  [.logError i "Error extracting address from STUN message"])
              | some addr =>
                if reqTID ≠ response.transactionID then
                  (r1, evs ++ [.logError i "Transaction ID mismatch"])
                else
                  ({ r1 with bindResponseAddr := some addr,
                             timeToBindResponse := some (env.elapsed i) }, evs)
            | _ =>
              (r1, evs ++ [.logError i "Unexpected STUN response received"])

/-- The UDP per-server loop: one outcome appended per configured URL, events
concatenated in order. -/
def udpLoop (env : UDPEnv) (reqTID : TID) (reqRaw : List Nat) :
    Nat → List String → List STUNResponse × List Event
  | _, [] => ([], [])
  | i, url :: rest =>
    ((udpProbeStep env reqTID reqRaw i url).1
        :: (udpLoop env reqTID reqRaw (i + 1) rest).1,
      (udpProbeStep env reqTID reqRaw i url).2
        ++ (udpLoop env reqTID reqRaw (i + 1) rest).2)

/-- The testUDP function (main.go lines 39-136): listen once, arm one
deadline for the whole batch when timeout > 0, build and serialize one
binding request, run the loop, close the socket on every exit path via
defer.  Errors before the loop are returned to the caller; the loop itself
never produces an error. -/
def testUDP (env : UDPEnv) (urls : List String) (timeout : Int) :
    Except GoError (List STUNResponse) × List Event :=
  match env.listenResult with
  | .error e =>
    (.error e,
      [.logWarn "Failed to listen over UDP on a port; UDP traffic may be blocked"])
  | .ok _ =>
    let dlEvs : List Event :=
      if 0 < timeout then [.setDeadline (env.now + timeout)] else []
    let dlRes : Except GoError Unit :=
      if 0 < timeout then env.setDeadlineResult else .ok ()
    match dlRes with
    | .error e => (.error e, [Event.listenUDP] ++ dlEvs ++ [.closeUDP])
    | .ok _ =>
      match env.buildResult with
      | .error e => (.error e, [Event.listenUDP] ++ dlEvs ++ [.closeUDP])
      | .ok tid =>
        match env.marshalResult tid with
        | .error e => (.error e, [Event.listenUDP] ++ dlEvs ++ [.closeUDP])
        | .ok raw =>
          (.ok (udpLoop env tid raw 0 urls).1,
            [Event.listenUDP] ++ dlEvs ++ [Event.buildRequest tid]
              ++ (udpLoop env tid raw 0 urls).2 ++ [Event.closeUDP])

/-- Environment oracle for the TCP run. -/
structure TCPEnv where
  buildResult : Except GoError TID
  marshalResult : TID → Except GoError (List Nat)
  dialResult : Nat → Except GoError Unit
  nowAtDial : Nat → Int
  setReadDeadlineResult : Nat → Except GoError Unit
  dns : String → List IPAddr
  writeResult : Nat → Except GoError Nat
  readResult : Nat → Except GoError (Nat × List Nat)
  decode : List Nat → Except GoError Message
  elapsed : Nat → Int

/-- One iteration of the TCP loop body (main.go lines 162-241): dial a fresh
connection (on failure, continue before any outcome is created), arm a read
deadline when timeout > 0 (on failure, continue before any outcome is
created), then create the outcome, resolve with network "tcp", write, read
into the 2000-byte buffer (discarding the returned byte count), decode the
whole buffer and classify as in the UDP step.  The returned Bool records
whether the dial succeeded, i.e. whether a close of this connection was
deferred to function exit. -/
def tcpProbeStep (env : TCPEnv) (reqTID : TID) (reqRaw : List Nat)
    (timeout : Int) (i : Nat) (url : String) :
    Option STUNResponse × List Event × Bool :=
  match env.dialResult i with
  | .error _ =>
    (none, ([.dial i url, .logError i "Error dialing STUN server via tcp"], false))
  | .ok _ =>
    let dlEvs : List Event :=
      if 0 < timeout then [.setReadDeadline i (env.nowAtDial i + timeout)] else []
    let dlRes : Except GoError Unit :=
      if 0 < timeout then env.setReadDeadlineResult i else .ok ()
    match dlRes with
    | .error _ =>
      (none, ([Event.dial i url] ++ dlEvs ++
        [.logError i "Error setting read deadline on TCP connection"], true))
    | .ok _ =>
      let r0 := NewSTUNResponse url
      let pre : List Event := [Event.dial i url] ++ dlEvs
      match resolveAddr env.dns "tcp" url with
      | none =>
        (some r0, (pre ++ [.logError i "Error resolving URL to a TCP address"], true))
      | some tcpAddr =>
        let r1 := { r0 with stunServerAddr := some tcpAddr.render }
        match env.writeResult i with
        | .error _ =>
          (some r1, (pre ++ [.send i reqRaw, .logError i "Error writing to conn"], true))
        | .ok n =>
          if n ≠ reqRaw.length then
            (some r1, (pre ++ [.send i reqRaw,
              .logError i "Only wrote part of bind request"], true))
          else
            match env.readResult i with
            | .error _ =>
              (some r1, (pre ++ [.send i reqRaw, .recv i,
                .logError i "Error reading from conn"], true))
            | .ok (_n, data) =>
              let buf := fillBuffer data
              let evs : List Event :=
                pre ++ [.send i reqRaw, .recv i, .decodeCall i buf]
              match env.decode buf with
              | .error _ =>
                (some r1, (evs ++ [.logError i "Error decoding STUN message"], true))
              | .ok response =>
                match response.typeClass with
                | .successResponse =>
                  match response.xorAddr with
                  | none =>
                    (some r1, (evs ++
                      [.logError i "Error extracting address from STUN message"], true))
                  | some addr =>
                    if reqTID ≠ response.transactionID then
                      (some r1, (evs ++ [.logError i "Transaction ID mismatch"], true))
                    else
                      let r2 := { r1 with bindResponseAddr := some addr,
                                          timeToBindResponse := some (env.elapsed i) }
                      (some r2, (evs, true))
                | _ =>
                  (some r1, (evs ++
                    [.logError i "Unexpected STUN response received"], true))

/-- The TCP per-server loop: outcomes of iterations that got past dialing and
deadline arming, events in order, and the indices whose connection was
successfully dialed (whose close is deferred to function exit). -/
def tcpLoop (env : TCPEnv) (reqTID : TID) (reqRaw : List Nat) (timeout : Int) :
    Nat → List String → List STUNResponse × List Event × List Nat
  | _, [] => ([], ([], []))
  | i, url :: rest =>
    ((tcpProbeStep env reqTID reqRaw timeout i url).1.toList
        ++ (tcpLoop env reqTID reqRaw timeout (i + 1) rest).1,
      ((tcpProbeStep env reqTID reqRaw timeout i url).2.1
          ++ (tcpLoop env reqTID reqRaw timeout (i + 1) rest).2.1,
        (if (tcpProbeStep env reqTID reqRaw timeout i url).2.2 then [i] else [])
          ++ (tcpLoop env reqTID reqRaw timeout (i + 1) rest).2.2))

/-- The testTCP function (main.go lines 138-245): build and serialize one
binding request, run the loop dialing one connection per server, and close
every successfully dialed connection at function exit — the defer sits inside
the loop, so the closes all run when the function returns, in reverse dial
order.  Errors before the loop are returned to the caller; the loop itself
never produces an error. -/
def testTCP (env : TCPEnv) (urls : List String) (timeout : Int) :
    Except GoError (List STUNResponse) × List Event :=
  match env.buildResult with
  | .error e => (.error e, [])
  | .ok tid =>
    match env.marshalResult tid with
    | .error e => (.error e, [])
    | .ok raw =>
      (.ok (tcpLoop env tid raw timeout 0 urls).1,
        [Event.buildRequest tid] ++ (tcpLoop env tid raw timeout 0 urls).2.1
          ++ ((tcpLoop env tid raw timeout 0 urls).2.2.reverse.map Event.closeConn))

/-- The configured UDP server list (main.go lines 26-33). -/
def stunServerURLsToTestUDP : List String :=
  ["stun.l.google.com:3478",
   "stun.l.google.com:19302",
   "stun.sipgate.net:3478",
   "stun.sipgate.net:3479",
   "global.stun.twilio.com:3478",
   "turn.viam.com:443"]

/-- The configured TCP server list (main.go lines 34-36). -/
def stunServerURLsToTestTCP : List String :=
  ["turn.viam.com:443"]

/-- Whether iteration i of the TCP loop produces an outcome record: it does
exactly when the dial succeeded and, when a timeout is configured, arming the
read deadline succeeded (both failure branches continue before
NewSTUNResponse is called). -/
def tcpOutcomeProduced (env : TCPEnv) (timeout : Int) (i : Nat) : Bool :=
  exceptOk (env.dialResult i) &&
    (if 0 < timeout then exceptOk (env.setReadDeadlineResult i) else true)

/-- The sublist of configured TCP URLs whose iterations produce an outcome,
starting at loop index i. -/
def admittedUrls (env : TCPEnv) (timeout : Int) : Nat → List String → List String
  | _, [] => []
  | i, url :: rest =>
    (if tcpOutcomeProduced env timeout i then [url] else [])
      ++ admittedUrls env timeout (i + 1) rest

/-- The loop indices whose TCP dial succeeded, starting at loop index i;
these are exactly the connections whose close is deferred to function exit. -/
def dialedIdxs (env : TCPEnv) : Nat → List String → List Nat
  | _, [] => []
  | i, _ :: rest =>
    (if exceptOk (env.dialResult i) then [i] else []) ++ dialedIdxs env (i + 1) rest

/-- Whether the UDP run fails before its per-server loop: listening fails,
arming the batch deadline fails (only consulted when 0 < timeout), building
the binding request fails, or serializing it fails.  Note this consults no
per-server oracle. -/
def udpPreLoopFails (env : UDPEnv) (timeout : Int) : Bool :=
  match env.listenResult with
  | .error _ => true
  | .ok _ =>
    match (if 0 < timeout then env.setDeadlineResult else .ok ()) with
    | .error _ => true
    | .ok _ =>
      match env.buildResult with
      | .error _ => true
      | .ok tid =>
        match env.marshalResult tid with
        | .error _ => true
        | .ok _ => false

/-- Whether the TCP run fails before its per-server loop: building the
binding request fails or serializing it fails.  Note this consults no
per-server oracle — in particular no dial result. -/
def tcpPreLoopFails (env : TCPEnv) : Bool :=
  match env.buildResult with
  | .error _ => true
  | .ok tid =>
    match env.marshalResult tid with
    | .error _ => true
    | .ok _ => false

/-- A response the program accepts for a given request transaction ID:
success-response class, an extractable XOR-mapped address, and a transaction
ID equal to the request's. -/
def acceptedResponse (reqTID : TID) (m : Message) : Prop :=
  m.typeClass = .successResponse ∧ m.xorAddr.isSome = true ∧ m.transactionID = reqTID

instance (reqTID : TID) (m : Message) : Decidable (acceptedResponse reqTID m) := by
  unfold acceptedResponse
  infer_instance

/-- Whether an event is a build of the binding request. -/
def isBuildEvent : Event → Bool
  | .buildRequest _ => true
  | _ => false

/-- Whether an event arms a deadline (the UDP batch deadline or a TCP
per-connection read deadline). -/
def isDeadlineEvent : Event → Bool
  | .setDeadline _ => true
  | .setReadDeadline _ _ => true
  | _ => false

/-- Whether, in the given trace, connection i is still open when server j is
dialed: server j's dial occurs, and connection i's close occurs only after it
(or never). -/
def connStillOpenAtDial (tr : List Event) (i j : Nat) (urlj : String) : Bool :=
  match tr.indexOf? (Event.dial j urlj), tr.indexOf? (Event.closeConn i) with
  | some kd, some kc => kd < kc
  | some _, none => true
  | _, _ => false

/-- Whether the trace contains a log-error event tagged with server index i. -/
def hasLogError (i : Nat) : List Event → Bool
  | [] => false
  | Event.logError j _ :: rest => (j == i) || hasLogError i rest
  | _ :: rest => hasLogError i rest

/-- The UDP environment with its read oracle replaced. -/
def UDPEnv.withRead (env : UDPEnv)
    (f : Nat → Except GoError (Nat × String × List Nat)) : UDPEnv :=
  { env with readResult := f }

/-- The TCP environment with its read oracle replaced. -/
def TCPEnv.withRead (env : TCPEnv)
    (f : Nat → Except GoError (Nat × List Nat)) : TCPEnv :=
  { env with readResult := f }

/-- Two UDP read results that agree except possibly on the reported source
address. -/
def sameButSrc : Except GoError (Nat × String × List Nat) →
    Except GoError (Nat × String × List Nat) → Prop
  | .error e₁, .error e₂ => e₁ = e₂
  | .ok (n₁, _, d₁), .ok (n₂, _, d₂) => n₁ = n₂ ∧ d₁ = d₂
  | _, _ => False

/-- Two UDP environments that agree on every oracle except that their read
results may report different source addresses. -/
def agreeExceptReadSrc (env₁ env₂ : UDPEnv) : Prop :=
  env₁.listenResult = env₂.listenResult ∧ env₁.now = env₂.now ∧
  env₁.setDeadlineResult = env₂.setDeadlineResult ∧
  env₁.buildResult = env₂.buildResult ∧
  env₁.marshalResult = env₂.marshalResult ∧ env₁.dns = env₂.dns ∧
  env₁.writeResult = env₂.writeResult ∧ env₁.decode = env₂.decode ∧
  env₁.elapsed = env₂.elapsed ∧
  ∀ j, sameButSrc (env₁.readResult j) (env₂.readResult j)

/-- A fixed 12-byte transaction ID used in concrete test environments. -/
def tid0 : TID := [1, 2, 3, 4, 5, 6, 7, 8, 9, 10, 11, 12]

/-- A success-response message matching tid0 with an extractable address. -/
def okMessage : Message :=
  { typeClass := .successResponse
    transactionID := tid0
    xorAddr := some "203.0.113.5:54321" }

/-- Concrete serialized request bytes (a 20-byte binding-request image). -/
def raw0 : List Nat := [0, 1, 0, 0, 33, 18, 164, 66] ++ tid0

/-- A DNS oracle resolving every name to one IPv4 address. -/
def dns0 : String → List IPAddr := fun _ => [IPAddr.v4 "198.51.100.7:3478"]

/-- A DNS oracle resolving every name to one IPv6 address only. -/
def dnsV6only : String → List IPAddr := fun _ => [IPAddr.v6 "[2001:db8::1]:3478"]

/-- A UDP environment in which every interaction succeeds. -/
def udpEnvOK : UDPEnv :=
  { listenResult := .ok ()
    now := 1000
    setDeadlineResult := .ok ()
    buildResult := .ok tid0
    marshalResult := fun _ => .ok raw0
    dns := dns0
    writeResult := fun _ => .ok raw0.length
    readResult := fun _ => .ok (20, "198.51.100.7:3478", raw0)
    decode := fun _ => .ok okMessage
    elapsed := fun _ => 7 }

/-- A TCP environment in which every interaction succeeds. -/
def tcpEnvOK : TCPEnv :=
  { buildResult := .ok tid0
    marshalResult := fun _ => .ok raw0
    dialResult := fun _ => .ok ()
    nowAtDial := fun _ => 2000
    setReadDeadlineResult := fun _ => .ok ()
    dns := dns0
    writeResult := fun _ => .ok raw0.length
    readResult := fun _ => .ok (20, raw0)
    decode := fun _ => .ok okMessage
    elapsed := fun _ => 7 }

/-- A TCP environment whose dial of the first server fails and whose reads
time out. -/
def tcpEnvC1 : TCPEnv :=
  { tcpEnvOK with
    dialResult := fun i => if i = 0 then .error "connection refused" else .ok ()
    readResult := fun _ => .error "read timeout" }

/-- A UDP environment in which building the binding request fails. -/
def udpEnvC4 : UDPEnv :=
  { udpEnvOK with buildResult := .error "crypto rand failed" }

/-- A TCP environment in which both dials succeed and reads time out. -/
def tcpEnvC5 : TCPEnv :=
  { tcpEnvOK with readResult := fun _ => .error "read timeout" }

/-- A UDP environment whose DNS oracle yields only IPv6 addresses. -/
def udpEnvV6 : UDPEnv := { udpEnvOK with dns := dnsV6only }

/-- A TCP environment whose DNS oracle yields only IPv6 addresses. -/
def tcpEnvV6 : TCPEnv := { tcpEnvOK with dns := dnsV6only }

/-! Helper lemmas about the per-server steps and the loops. -/

lemma udpProbeStep_url (env : UDPEnv) (reqTID : TID) (reqRaw : List Nat)
    (i : Nat) (url : String) :
    ((udpProbeStep env reqTID reqRaw i url).1).stunServerURL = url := by
  unfold udpProbeStep
  dsimp only
  split
  · rfl
  · split
    · rfl
    · split
      · rfl
      · split
        · rfl
        · split
          · rfl
          · split
            · split
              · rfl
              · split
                · rfl
                · rfl
            · rfl

lemma udpLoop_map_url (env : UDPEnv) (reqTID : TID) (reqRaw : List Nat) :
    ∀ (urls : List String) (i : Nat),
      ((udpLoop env reqTID reqRaw i urls).1).map (fun r => r.stunServerURL) = urls := by
  intro urls
  induction urls with
  | nil => intro i; rfl
  | cons url rest ih =>
    intro i
    simp [udpLoop, udpProbeStep_url, ih]

lemma tcpProbeStep_toList_url (env : TCPEnv) (reqTID : TID) (reqRaw : List Nat)
    (timeout : Int) (i : Nat) (url : String) :
    ((tcpProbeStep env reqTID reqRaw timeout i url).1).toList.map
        (fun r => r.stunServerURL) =
      if tcpOutcomeProduced env timeout i then [url] else [] := by
  unfold tcpProbeStep tcpOutcomeProduced
  by_cases ht : (0 : Int) < timeout
  · simp only [if_pos ht]
    repeat' split <;> first | rfl | simp_all [NewSTUNResponse, exceptOk] | skip
  · simp only [if_neg ht]
    repeat' split <;> first | rfl | simp_all [NewSTUNResponse, exceptOk] | skip

lemma tcpLoop_map_url (env : TCPEnv) (reqTID : TID) (reqRaw : List Nat)
    (timeout : Int) :
    ∀ (urls : List String) (i : Nat),
      ((tcpLoop env reqTID reqRaw timeout i urls).1).map (fun r => r.stunServerURL)
        = admittedUrls env timeout i urls := by
  intro urls
  induction urls with
  | nil => intro i; rfl
  | cons url rest ih =>
    intro i
    simp [tcpLoop, admittedUrls, ih, tcpProbeStep_toList_url]

lemma admittedUrls_sublist (env : TCPEnv) (timeout : Int) :
    ∀ (urls : List String) (i : Nat),
      List.Sublist (admittedUrls env timeout i urls) urls := by
  intro urls
  induction urls with
  | nil => intro i; simp [admittedUrls]
  | cons url rest ih =>
    intro i
    unfold admittedUrls
    split
    · simpa using (ih (i + 1)).cons₂ url
    · simpa using (ih (i + 1)).cons url

lemma testUDP_ok_spec (env : UDPEnv) (urls : List String) (timeout : Int)
    (outs : List STUNResponse) (h : (testUDP env urls timeout).1 = .ok outs) :
    ∃ tid raw, env.buildResult = .ok tid ∧ env.marshalResult tid = .ok raw ∧
      outs = (udpLoop env tid raw 0 urls).1 := by
  unfold testUDP at h
  repeat' split at h <;> simp_all

lemma testTCP_ok_spec (env : TCPEnv) (urls : List String) (timeout : Int)
    (outs : List STUNResponse) (h : (testTCP env urls timeout).1 = .ok outs) :
    ∃ tid raw, env.buildResult = .ok tid ∧ env.marshalResult tid = .ok raw ∧
      outs = (tcpLoop env tid raw timeout 0 urls).1 := by
  unfold testTCP at h
  repeat' split at h <;> simp_all

/-! Claim C1 -/

/-- C1: counterexample.  The claim says a completed run appends exactly N
outcome records for every transport, regardless of which per-server step
failed.  On the TCP run this is false: a dial failure for server 0 hits
continue before the outcome record is created and appended, so a completed
2-server TCP run whose first dial fails produces only 1 outcome record. -/
theorem C1_counterexample :
    (["a:1", "b:2"] : List String).length = 2 ∧
    ((testTCP tcpEnvC1 ["a:1", "b:2"] 10).1.toOption.map List.length = some 1) := by
  decide

/-- C1 amended: a completed UDP run appends exactly one outcome per
configured endpoint, in configuration order; a completed TCP run appends one
outcome per configured endpoint whose dial (and, when a timeout is
configured, read-deadline arming) succeeded, in configuration order — an
order-preserving sublist of the configured list. -/
theorem C1_batch_order :
    (∀ (env : UDPEnv) (urls : List String) (t : Int) (outs : List STUNResponse),
        (testUDP env urls t).1 = .ok outs →
        outs.map (fun r => r.stunServerURL) = urls) ∧
    (∀ (env : TCPEnv) (urls : List String) (t : Int) (outs : List STUNResponse),
        (testTCP env urls t).1 = .ok outs →
        outs.map (fun r => r.stunServerURL) = admittedUrls env t 0 urls ∧
        List.Sublist (admittedUrls env t 0 urls) urls) := by
  constructor
  · intro env urls t outs h
    obtain ⟨tid, raw, -, -, rfl⟩ := testUDP_ok_spec env urls t outs h
    exact udpLoop_map_url env tid raw urls 0
  · intro env urls t outs h
    obtain ⟨tid, raw, -, -, rfl⟩ := testTCP_ok_spec env urls t outs h
    exact ⟨tcpLoop_map_url env tid raw t urls 0, admittedUrls_sublist env t urls 0⟩

/-- C1 witness: the amended theorem applied to concrete two-endpoint runs in
the all-success environments. -/
theorem C1_batch_order_witness :
    ((udpLoop udpEnvOK tid0 raw0 0 ["a:1", "b:2"]).1).map
        (fun r => r.stunServerURL) = ["a:1", "b:2"] ∧
    ((tcpLoop tcpEnvOK tid0 raw0 10 0 ["a:1", "b:2"]).1).map
        (fun r => r.stunServerURL) = admittedUrls tcpEnvOK 10 0 ["a:1", "b:2"] :=
  ⟨C1_batch_order.1 udpEnvOK ["a:1", "b:2"] 10 _ rfl,
    (C1_batch_order.2 tcpEnvOK ["a:1", "b:2"] 10 _ rfl).1⟩

/-! Error-propagation helpers. -/

lemma testUDP_isOk (env : UDPEnv) (urls : List String) (t : Int) :
    exceptOk (testUDP env urls t).1 = !udpPreLoopFails env t := by
  unfold testUDP udpPreLoopFails
  repeat' split <;> simp_all [exceptOk]

lemma testTCP_isOk (env : TCPEnv) (urls : List String) (t : Int) :
    exceptOk (testTCP env urls t).1 = !tcpPreLoopFails env := by
  unfold testTCP tcpPreLoopFails
  repeat' split <;> simp_all [exceptOk]

lemma udpProbeStep_failed_logged (env : UDPEnv) (reqTID : TID) (reqRaw : List Nat)
    (i : Nat) (url : String) :
    ((udpProbeStep env reqTID reqRaw i url).1).bindResponseAddr = none →
    hasLogError i (udpProbeStep env reqTID reqRaw i url).2 = true := by
  unfold udpProbeStep
  dsimp only
  repeat' split
  all_goals intro h
  all_goals simp_all [hasLogError]

lemma tcpProbeStep_failed_logged (env : TCPEnv) (reqTID : TID) (reqRaw : List Nat)
    (t : Int) (i : Nat) (url : String) :
    ((tcpProbeStep env reqTID reqRaw t i url).1.bind
        (fun r => r.bindResponseAddr)) = none →
    hasLogError i ((tcpProbeStep env reqTID reqRaw t i url).2.1) = true := by
  unfold tcpProbeStep
  dsimp only
  repeat' split
  all_goals intro h
  all_goals simp_all [hasLogError]

lemma tcpProbeStep_dial_mem (env : TCPEnv) (reqTID : TID) (reqRaw : List Nat)
    (t : Int) (i : Nat) (url : String) :
    Event.dial i url ∈ (tcpProbeStep env reqTID reqRaw t i url).2.1 := by
  unfold tcpProbeStep
  dsimp only
  repeat' split
  all_goals simp

lemma tcpLoop_dial_mem (env : TCPEnv) (reqTID : TID) (reqRaw : List Nat) (t : Int) :
    ∀ (urls : List String) (j i : Nat) (h : i < urls.length),
      Event.dial (j + i) (urls.get ⟨i, h⟩)
        ∈ (tcpLoop env reqTID reqRaw t j urls).2.1 := by
  intro urls
  induction urls with
  | nil => intro j i h; simp at h
  | cons url rest ih =>
    intro j i h
    cases i with
    | zero =>
      exact List.mem_append.mpr (Or.inl (tcpProbeStep_dial_mem env reqTID reqRaw t j url))
    | succ k =>
      have hk : k < rest.length := by simpa using h
      have hmem := ih (j + 1) k hk
      rw [Nat.succ_add] at hmem
      exact List.mem_append.mpr (Or.inr hmem)

/-! Claim C4 -/

/-- C4: counterexample.  The claim says only a failure to open/bind the
run's very first channel, or to arm its deadline, propagates to the caller.
In this environment the UDP socket opens and its deadline arms successfully,
yet the run still returns an error, because building the binding request
failed and that error is returned as well. -/
theorem C4_counterexample :
    exceptOk udpEnvC4.listenResult = true ∧
    exceptOk udpEnvC4.setDeadlineResult = true ∧
    exceptOk (testUDP udpEnvC4 ["a:1"] 10).1 = false := by
  decide

/-- C4 amended: a transport run returns an error exactly when one of its
pre-loop steps failed — for UDP: socket open, deadline arming (when
timeout > 0), request build, or request serialization; for TCP: request
build or request serialization only.  No per-server failure, including a TCP
dial failure for any server, ever propagates: the loop result is ok for
every per-server oracle behavior. -/
theorem C4_propagation :
    (∀ (env : UDPEnv) (urls : List String) (t : Int),
        exceptOk (testUDP env urls t).1 = !udpPreLoopFails env t) ∧
    (∀ (env : TCPEnv) (urls : List String) (t : Int),
        exceptOk (testTCP env urls t).1 = !tcpPreLoopFails env) :=
  ⟨fun env urls t => testUDP_isOk env urls t,
    fun env urls t => testTCP_isOk env urls t⟩

/-! Claim C3 -/

/-- C3: failure isolation.  A per-server step failure (any branch that
leaves the outcome without a bind-response address) produces a log event
tagged with that server's index; a UDP run that completes yields one outcome
per configured server; whenever the pre-loop steps succeed the run returns
ok — for every per-server oracle behavior, so no per-server failure aborts
the batch or the run — and every TCP server of the list is dialed (attempted)
whatever happened to earlier servers. -/
theorem C3_failure_isolation :
    (∀ (env : UDPEnv) (reqTID : TID) (reqRaw : List Nat) (i : Nat) (url : String),
        ((udpProbeStep env reqTID reqRaw i url).1).bindResponseAddr = none →
        hasLogError i (udpProbeStep env reqTID reqRaw i url).2 = true) ∧
    (∀ (env : TCPEnv) (reqTID : TID) (reqRaw : List Nat) (t : Int) (i : Nat) (url : String),
        ((tcpProbeStep env reqTID reqRaw t i url).1.bind
            (fun r => r.bindResponseAddr)) = none →
        hasLogError i ((tcpProbeStep env reqTID reqRaw t i url).2.1) = true) ∧
    (∀ (env : UDPEnv) (urls : List String) (t : Int) (outs : List STUNResponse),
        (testUDP env urls t).1 = .ok outs → outs.length = urls.length) ∧
    (∀ (env : UDPEnv) (urls : List String) (t : Int),
        udpPreLoopFails env t = false → exceptOk (testUDP env urls t).1 = true) ∧
    (∀ (env : TCPEnv) (urls : List String) (t : Int),
        tcpPreLoopFails env = false → exceptOk (testTCP env urls t).1 = true) ∧
    (∀ (env : TCPEnv) (urls : List String) (t : Int) (i : Nat) (h : i < urls.length),
        tcpPreLoopFails env = false →
        Event.dial i (urls.get ⟨i, h⟩) ∈ (testTCP env urls t).2) := by
  refine ⟨udpProbeStep_failed_logged, tcpProbeStep_failed_logged, ?_, ?_, ?_, ?_⟩
  · intro env urls t outs h
    obtain ⟨tid, raw, -, -, rfl⟩ := testUDP_ok_spec env urls t outs h
    have := congrArg List.length (udpLoop_map_url env tid raw urls 0)
    simpa using this
  · intro env urls t h
    rw [testUDP_isOk, h]
    rfl
  · intro env urls t h
    rw [testTCP_isOk, h]
    rfl
  · intro env urls t i h hpre
    unfold tcpPreLoopFails at hpre
    unfold testTCP
    rcases hb : env.buildResult with e | tid
    · rw [hb] at hpre
      exact Bool.noConfusion hpre
    · rw [hb] at hpre
      dsimp only at hpre ⊢
      rcases hm : env.marshalResult tid with e | raw
      · rw [hm] at hpre
        exact Bool.noConfusion hpre
      · rw [hm] at hpre
        dsimp only at hpre ⊢
        have hmem := tcpLoop_dial_mem env tid raw t urls 0 i h
        rw [Nat.zero_add] at hmem
        simp only [List.mem_append]
        exact Or.inl (Or.inr hmem)

/-- C3 witness: the isolation properties at concrete environments — a UDP
resolution failure and a TCP dial failure are logged, the all-success runs
return ok with full batches, and the server of a one-element TCP list is
dialed. -/
theorem C3_failure_isolation_witness :
    hasLogError 0 (udpProbeStep udpEnvV6 tid0 raw0 0 "a:1").2 = true ∧
    hasLogError 0 ((tcpProbeStep tcpEnvC1 tid0 raw0 10 0 "a:1").2.1) = true ∧
    ((udpLoop udpEnvOK tid0 raw0 0 ["a:1"]).1).length = (["a:1"] : List String).length ∧
    exceptOk (testUDP udpEnvOK ["a:1"] 10).1 = true ∧
    exceptOk (testTCP tcpEnvOK ["a:1"] 10).1 = true ∧
    Event.dial 0 ((["a:1"] : List String).get ⟨0, by decide⟩)
      ∈ (testTCP tcpEnvOK ["a:1"] 10).2 :=
  ⟨C3_failure_isolation.1 udpEnvV6 tid0 raw0 0 "a:1" (by decide),
    C3_failure_isolation.2.1 tcpEnvC1 tid0 raw0 10 0 "a:1" (by decide),
    C3_failure_isolation.2.2.1 udpEnvOK ["a:1"] 10 _ rfl,
    C3_failure_isolation.2.2.2.1 udpEnvOK ["a:1"] 10 (by decide),
    C3_failure_isolation.2.2.2.2.1 tcpEnvOK ["a:1"] 10 (by decide),
    C3_failure_isolation.2.2.2.2.2 tcpEnvOK ["a:1"] 10 0 (by decide) (by decide)⟩

/-! Claim C2 -/

/-- C2: for a server whose resolution, full-length write and read all
succeed, the outcome's bind-response address is set exactly when the
received buffer decodes to a success-response-class message with an
extractable mapped address and a transaction ID equal to the request's, and
the round-trip duration is set exactly under the same condition; on
acceptance both are set — the address present and the duration equal to the
elapsed time measured since the send, positive whenever the clock advanced
during the exchange — and on every other path (decode failure, other class,
no extractable address, transaction-ID mismatch) both fields stay unset.
Stated for the UDP step and the TCP step. -/
theorem C2_acceptance :
    (∀ (env : UDPEnv) (reqTID : TID) (reqRaw : List Nat) (i : Nat) (url : String)
        (a : IPAddr) (n : Nat) (src : String) (data : List Nat),
        resolveAddr env.dns "udp4" url = some a →
        env.writeResult i = .ok reqRaw.length →
        env.readResult i = .ok (n, src, data) →
        (((udpProbeStep env reqTID reqRaw i url).1).bindResponseAddr.isSome = true ↔
          ∃ m, env.decode (fillBuffer data) = .ok m ∧ acceptedResponse reqTID m) ∧
        (((udpProbeStep env reqTID reqRaw i url).1).timeToBindResponse.isSome = true ↔
          ∃ m, env.decode (fillBuffer data) = .ok m ∧ acceptedResponse reqTID m) ∧
        ((∃ m, env.decode (fillBuffer data) = .ok m ∧ acceptedResponse reqTID m) →
          ((udpProbeStep env reqTID reqRaw i url).1).bindResponseAddr.isSome = true ∧
          ((udpProbeStep env reqTID reqRaw i url).1).timeToBindResponse
              = some (env.elapsed i) ∧
          (0 < env.elapsed i →
            ∃ d, ((udpProbeStep env reqTID reqRaw i url).1).timeToBindResponse = some d
              ∧ 0 < d))) ∧
    (∀ (env : TCPEnv) (reqTID : TID) (reqRaw : List Nat) (t : Int) (i : Nat)
        (url : String) (a : IPAddr) (n : Nat) (data : List Nat),
        env.dialResult i = .ok () →
        (if 0 < t then env.setReadDeadlineResult i else .ok ()) = .ok () →
        resolveAddr env.dns "tcp" url = some a →
        env.writeResult i = .ok reqRaw.length →
        env.readResult i = .ok (n, data) →
        ∃ r, (tcpProbeStep env reqTID reqRaw t i url).1 = some r ∧
          (r.bindResponseAddr.isSome = true ↔
            ∃ m, env.decode (fillBuffer data) = .ok m ∧ acceptedResponse reqTID m) ∧
          (r.timeToBindResponse.isSome = true ↔
            ∃ m, env.decode (fillBuffer data) = .ok m ∧ acceptedResponse reqTID m) ∧
          ((∃ m, env.decode (fillBuffer data) = .ok m ∧ acceptedResponse reqTID m) →
            r.bindResponseAddr.isSome = true ∧
            r.timeToBindResponse = some (env.elapsed i) ∧
            (0 < env.elapsed i →
              ∃ d, r.timeToBindResponse = some d ∧ 0 < d))) := by
  have hlen : ∀ (l : List Nat), ¬(l.length ≠ l.length) := fun _ hh => hh rfl
  constructor
  · intro env reqTID reqRaw i url a n src data hres hw hr
    unfold udpProbeStep
    rw [hres]
    dsimp only
    rw [hw]
    dsimp only
    rw [if_neg (hlen reqRaw), hr]
    dsimp only
    rcases hdec : env.decode (fillBuffer data) with e | m
    · simp [NewSTUNResponse]
    · rcases m with ⟨tc, mtid, xa⟩
      cases tc
      case request => simp [NewSTUNResponse, acceptedResponse]
      case indication => simp [NewSTUNResponse, acceptedResponse]
      case errorResponse => simp [NewSTUNResponse, acceptedResponse]
      case successResponse =>
        rcases xa with _ | addr
        · simp [NewSTUNResponse, acceptedResponse]
        · dsimp only
          by_cases htid : reqTID = mtid
          · rw [if_neg (fun hh => hh htid)]
            refine ⟨?_, ?_, ?_⟩
            · simp [NewSTUNResponse, acceptedResponse, htid]
            · simp [NewSTUNResponse, acceptedResponse, htid]
            · intro _
              exact ⟨rfl, rfl, fun hpos => ⟨env.elapsed i, rfl, hpos⟩⟩
          · rw [if_pos htid]
            simp [NewSTUNResponse, acceptedResponse, Ne.symm htid]
  · intro env reqTID reqRaw t i url a n data hd hdl hres hw hr
    unfold tcpProbeStep
    rw [hd]
    dsimp only
    rw [hdl]
    dsimp only
    rw [hres]
    dsimp only
    rw [hw]
    dsimp only
    rw [if_neg (hlen reqRaw), hr]
    dsimp only
    rcases hdec : env.decode (fillBuffer data) with e | m
    · exact ⟨_, rfl, by simp [NewSTUNResponse], by simp [NewSTUNResponse],
        by simp⟩
    · rcases m with ⟨tc, mtid, xa⟩
      cases tc
      case request =>
        exact ⟨_, rfl, by simp [NewSTUNResponse, acceptedResponse],
          by simp [NewSTUNResponse, acceptedResponse], by simp [acceptedResponse]⟩
      case indication =>
        exact ⟨_, rfl, by simp [NewSTUNResponse, acceptedResponse],
          by simp [NewSTUNResponse, acceptedResponse], by simp [acceptedResponse]⟩
      case errorResponse =>
        exact ⟨_, rfl, by simp [NewSTUNResponse, acceptedResponse],
          by simp [NewSTUNResponse, acceptedResponse], by simp [acceptedResponse]⟩
      case successResponse =>
        rcases xa with _ | addr
        · exact ⟨_, rfl, by simp [NewSTUNResponse, acceptedResponse],
            by simp [NewSTUNResponse, acceptedResponse], by simp [acceptedResponse]⟩
        · dsimp only
          by_cases htid : reqTID = mtid
          · rw [if_neg (fun hh => hh htid)]
            refine ⟨_, rfl, ?_, ?_, ?_⟩
            · simp [NewSTUNResponse, acceptedResponse, htid]
            · simp [NewSTUNResponse, acceptedResponse, htid]
            · intro _
              exact ⟨rfl, rfl, fun hpos => ⟨env.elapsed i, rfl, hpos⟩⟩
          · rw [if_pos htid]
            exact ⟨_, rfl, by simp [NewSTUNResponse, acceptedResponse, Ne.symm htid],
              by simp [NewSTUNResponse, acceptedResponse, Ne.symm htid],
              by simp [acceptedResponse, Ne.symm htid]⟩

/-- C2 witness: the characterization applied in the all-success
environments, where the decoded message is accepted, so both outcome fields
are set and the duration is the positive measured elapsed time. -/
theorem C2_acceptance_witness :
    (((udpProbeStep udpEnvOK tid0 raw0 0 "a:1").1).bindResponseAddr.isSome = true ∧
      ((udpProbeStep udpEnvOK tid0 raw0 0 "a:1").1).timeToBindResponse
          = some (udpEnvOK.elapsed 0) ∧
      ∃ d, ((udpProbeStep udpEnvOK tid0 raw0 0 "a:1").1).timeToBindResponse = some d
        ∧ 0 < d) ∧
    (∃ r, (tcpProbeStep tcpEnvOK tid0 raw0 10 0 "a:1").1 = some r ∧
      r.bindResponseAddr.isSome = true ∧
      r.timeToBindResponse = some (tcpEnvOK.elapsed 0)) := by
  constructor
  · have h := ((C2_acceptance.1 udpEnvOK tid0 raw0 0 "a:1"
      (IPAddr.v4 "198.51.100.7:3478") 20 "198.51.100.7:3478" raw0
      (by decide) rfl rfl).2.2) ⟨okMessage, rfl, by decide⟩
    exact ⟨h.1, h.2.1, h.2.2 (by decide)⟩
  · obtain ⟨r, heq, -, -, himp⟩ := C2_acceptance.2 tcpEnvOK tid0 raw0 10 0 "a:1"
      (IPAddr.v4 "198.51.100.7:3478") 20 raw0 rfl rfl (by decide) rfl rfl
    have h := himp ⟨okMessage, rfl, by decide⟩
    exact ⟨r, heq, h.1, h.2.1⟩

/-! Connection-lifetime helpers. -/

lemma tcpProbeStep_no_close (env : TCPEnv) (reqTID : TID) (reqRaw : List Nat)
    (t : Int) (i : Nat) (url : String) (j : Nat) :
    Event.closeConn j ∉ (tcpProbeStep env reqTID reqRaw t i url).2.1 := by
  unfold tcpProbeStep
  dsimp only
  repeat' split
  all_goals simp

lemma tcpProbeStep_dialed (env : TCPEnv) (reqTID : TID) (reqRaw : List Nat)
    (t : Int) (i : Nat) (url : String) :
    (tcpProbeStep env reqTID reqRaw t i url).2.2 = exceptOk (env.dialResult i) := by
  unfold tcpProbeStep
  dsimp only
  repeat' split
  all_goals simp_all [exceptOk]

lemma tcpLoop_no_close (env : TCPEnv) (reqTID : TID) (reqRaw : List Nat) (t : Int) :
    ∀ (urls : List String) (i j : Nat),
      Event.closeConn j ∉ (tcpLoop env reqTID reqRaw t i urls).2.1 := by
  intro urls
  induction urls with
  | nil => intro i j; simp [tcpLoop]
  | cons url rest ih =>
    intro i j
    simp only [tcpLoop, List.mem_append]
    push_neg
    exact ⟨tcpProbeStep_no_close env reqTID reqRaw t i url j, ih (i + 1) j⟩

lemma tcpLoop_dialed (env : TCPEnv) (reqTID : TID) (reqRaw : List Nat) (t : Int) :
    ∀ (urls : List String) (i : Nat),
      (tcpLoop env reqTID reqRaw t i urls).2.2 = dialedIdxs env i urls := by
  intro urls
  induction urls with
  | nil => intro i; rfl
  | cons url rest ih =>
    intro i
    simp only [tcpLoop, dialedIdxs, tcpProbeStep_dialed, ih]

lemma testTCP_ok_trace (env : TCPEnv) (urls : List String) (t : Int)
    (tid : TID) (raw : List Nat)
    (hb : env.buildResult = .ok tid) (hm : env.marshalResult tid = .ok raw) :
    (testTCP env urls t).1 = .ok (tcpLoop env tid raw t 0 urls).1 ∧
    (testTCP env urls t).2 =
      [Event.buildRequest tid] ++ (tcpLoop env tid raw t 0 urls).2.1
        ++ ((tcpLoop env tid raw t 0 urls).2.2.reverse.map Event.closeConn) := by
  unfold testTCP
  rw [hb]
  dsimp only
  rw [hm]
  exact ⟨rfl, rfl⟩

lemma testUDP_ok_trace (env : UDPEnv) (urls : List String) (t : Int)
    (hpre : udpPreLoopFails env t = false) :
    ∃ tid raw, env.buildResult = .ok tid ∧ env.marshalResult tid = .ok raw ∧
      (testUDP env urls t).1 = .ok (udpLoop env tid raw 0 urls).1 ∧
      (testUDP env urls t).2 =
        [Event.listenUDP]
          ++ (if 0 < t then [Event.setDeadline (env.now + t)] else [])
          ++ [Event.buildRequest tid] ++ (udpLoop env tid raw 0 urls).2
          ++ [Event.closeUDP] := by
  unfold udpPreLoopFails at hpre
  unfold testUDP
  rcases hl : env.listenResult with e | u
  · rw [hl] at hpre
    exact Bool.noConfusion hpre
  · rw [hl] at hpre
    dsimp only at hpre ⊢
    rcases hdl : (if 0 < t then env.setDeadlineResult else Except.ok ()) with e | u2
    · rw [hdl] at hpre
      exact Bool.noConfusion hpre
    · rw [hdl] at hpre
      dsimp only at hpre ⊢
      rcases hbu : env.buildResult with e | tid
      · rw [hbu] at hpre
        exact Bool.noConfusion hpre
      · rw [hbu] at hpre
        dsimp only at hpre ⊢
        rcases hma : env.marshalResult tid with e | raw
        · rw [hma] at hpre
          exact Bool.noConfusion hpre
        · exact ⟨tid, raw, rfl, hma, rfl, rfl⟩

/-! Claim C5 -/

/-- C5: counterexample.  The claim says no earlier server's TCP connection
remains open while a later server is being probed.  In a 2-server run with
both dials succeeding, the defer of conn.Close() inside the loop runs only
at function exit, so server 0's connection is still open when server 1 is
dialed: in the run's trace the dial of server 1 occurs before the close of
connection 0. -/
theorem C5_counterexample :
    connStillOpenAtDial (testTCP tcpEnvC5 ["a:1", "b:2"] 10).2 0 1 "b:2" = true := by
  decide

/-- C5 amended: every successfully dialed TCP connection is closed only at
run exit: the run's trace is the loop body followed by the closes of exactly
the dialed connections in reverse dial order, and no close event occurs
anywhere in the loop body — so earlier servers' connections remain open
while later servers are probed. -/
theorem C5_deferred_close :
    ∀ (env : TCPEnv) (urls : List String) (t : Int) (tid : TID) (raw : List Nat),
      env.buildResult = .ok tid → env.marshalResult tid = .ok raw →
      (testTCP env urls t).2
        = (Event.buildRequest tid :: (tcpLoop env tid raw t 0 urls).2.1)
            ++ ((dialedIdxs env 0 urls).reverse.map Event.closeConn) ∧
      (∀ j, Event.closeConn j ∉ (tcpLoop env tid raw t 0 urls).2.1) ∧
      (tcpLoop env tid raw t 0 urls).2.2 = dialedIdxs env 0 urls := by
  intro env urls t tid raw hb hm
  obtain ⟨-, htr⟩ := testTCP_ok_trace env urls t tid raw hb hm
  refine ⟨?_, fun j => tcpLoop_no_close env tid raw t urls 0 j,
    tcpLoop_dialed env tid raw t urls 0⟩
  rw [htr, tcpLoop_dialed env tid raw t urls 0]
  rfl

/-- C5 witness: the amended close discipline at a concrete 2-server run. -/
theorem C5_deferred_close_witness :
    (testTCP tcpEnvC5 ["a:1", "b:2"] 10).2
      = (Event.buildRequest tid0 :: (tcpLoop tcpEnvC5 tid0 raw0 10 0 ["a:1", "b:2"]).2.1)
          ++ ((dialedIdxs tcpEnvC5 0 ["a:1", "b:2"]).reverse.map Event.closeConn) :=
  (C5_deferred_close tcpEnvC5 ["a:1", "b:2"] 10 tid0 raw0 rfl rfl).1

/-! Request-reuse and deadline helpers. -/

lemma udpProbeStep_send_payload (env : UDPEnv) (reqTID : TID) (reqRaw : List Nat)
    (i : Nat) (url : String) :
    ∀ j p, Event.send j p ∈ (udpProbeStep env reqTID reqRaw i url).2 → p = reqRaw := by
  unfold udpProbeStep
  dsimp only
  repeat' split
  all_goals intro j p hp
  all_goals simp_all

lemma udpProbeStep_filter_build (env : UDPEnv) (reqTID : TID) (reqRaw : List Nat)
    (i : Nat) (url : String) :
    ((udpProbeStep env reqTID reqRaw i url).2).filter isBuildEvent = [] := by
  unfold udpProbeStep
  dsimp only
  repeat' split
  all_goals simp [isBuildEvent]

lemma udpProbeStep_filter_deadline (env : UDPEnv) (reqTID : TID) (reqRaw : List Nat)
    (i : Nat) (url : String) :
    ((udpProbeStep env reqTID reqRaw i url).2).filter isDeadlineEvent = [] := by
  unfold udpProbeStep
  dsimp only
  repeat' split
  all_goals simp [isDeadlineEvent]

lemma udpLoop_send_payload (env : UDPEnv) (reqTID : TID) (reqRaw : List Nat) :
    ∀ (urls : List String) (i : Nat) (j : Nat) (p : List Nat),
      Event.send j p ∈ (udpLoop env reqTID reqRaw i urls).2 → p = reqRaw := by
  intro urls
  induction urls with
  | nil => intro i j p hp; simp [udpLoop] at hp
  | cons url rest ih =>
    intro i j p hp
    rcases List.mem_append.mp hp with hp1 | hp2
    · exact udpProbeStep_send_payload env reqTID reqRaw i url j p hp1
    · exact ih (i + 1) j p hp2

lemma udpLoop_filter_build (env : UDPEnv) (reqTID : TID) (reqRaw : List Nat) :
    ∀ (urls : List String) (i : Nat),
      ((udpLoop env reqTID reqRaw i urls).2).filter isBuildEvent = [] := by
  intro urls
  induction urls with
  | nil => intro i; rfl
  | cons url rest ih =>
    intro i
    simp only [udpLoop, List.filter_append, udpProbeStep_filter_build, ih,
      List.append_nil]

lemma udpLoop_filter_deadline (env : UDPEnv) (reqTID : TID) (reqRaw : List Nat) :
    ∀ (urls : List String) (i : Nat),
      ((udpLoop env reqTID reqRaw i urls).2).filter isDeadlineEvent = [] := by
  intro urls
  induction urls with
  | nil => intro i; rfl
  | cons url rest ih =>
    intro i
    simp only [udpLoop, List.filter_append, udpProbeStep_filter_deadline, ih,
      List.append_nil]

lemma tcpProbeStep_send_payload (env : TCPEnv) (reqTID : TID) (reqRaw : List Nat)
    (t : Int) (i : Nat) (url : String) :
    ∀ j p, Event.send j p ∈ (tcpProbeStep env reqTID reqRaw t i url).2.1 → p = reqRaw := by
  unfold tcpProbeStep
  dsimp only
  repeat' split
  all_goals intro j p hp
  all_goals simp_all

lemma tcpProbeStep_filter_build (env : TCPEnv) (reqTID : TID) (reqRaw : List Nat)
    (t : Int) (i : Nat) (url : String) :
    ((tcpProbeStep env reqTID reqRaw t i url).2.1).filter isBuildEvent = [] := by
  unfold tcpProbeStep
  dsimp only
  repeat' split
  all_goals simp [isBuildEvent]

lemma tcpProbeStep_filter_deadline (env : TCPEnv) (reqTID : TID) (reqRaw : List Nat)
    (t : Int) (i : Nat) (url : String) :
    ((tcpProbeStep env reqTID reqRaw t i url).2.1).filter isDeadlineEvent
      = if 0 < t ∧ exceptOk (env.dialResult i) = true
        then [Event.setReadDeadline i (env.nowAtDial i + t)] else [] := by
  unfold tcpProbeStep
  by_cases ht : (0 : Int) < t
  · simp only [if_pos ht]
    repeat' split
    all_goals simp_all [isDeadlineEvent, exceptOk, ht]
  · simp only [if_neg ht]
    repeat' split
    all_goals simp_all [isDeadlineEvent, exceptOk, ht]

lemma tcpLoop_send_payload (env : TCPEnv) (reqTID : TID) (reqRaw : List Nat)
    (t : Int) :
    ∀ (urls : List String) (i : Nat) (j : Nat) (p : List Nat),
      Event.send j p ∈ (tcpLoop env reqTID reqRaw t i urls).2.1 → p = reqRaw := by
  intro urls
  induction urls with
  | nil => intro i j p hp; simp [tcpLoop] at hp
  | cons url rest ih =>
    intro i j p hp
    rcases List.mem_append.mp hp with hp1 | hp2
    · exact tcpProbeStep_send_payload env reqTID reqRaw t i url j p hp1
    · exact ih (i + 1) j p hp2

lemma tcpLoop_filter_build (env : TCPEnv) (reqTID : TID) (reqRaw : List Nat)
    (t : Int) :
    ∀ (urls : List String) (i : Nat),
      ((tcpLoop env reqTID reqRaw t i urls).2.1).filter isBuildEvent = [] := by
  intro urls
  induction urls with
  | nil => intro i; rfl
  | cons url rest ih =>
    intro i
    simp only [tcpLoop, List.filter_append, tcpProbeStep_filter_build, ih,
      List.append_nil]

lemma tcpLoop_filter_deadline (env : TCPEnv) (reqTID : TID) (reqRaw : List Nat)
    (t : Int) :
    ∀ (urls : List String) (i : Nat),
      ((tcpLoop env reqTID reqRaw t i urls).2.1).filter isDeadlineEvent
        = if 0 < t
          then (dialedIdxs env i urls).map
            (fun k => Event.setReadDeadline k (env.nowAtDial k + t))
          else [] := by
  intro urls
  induction urls with
  | nil => intro i; by_cases ht : (0 : Int) < t <;> simp [tcpLoop, dialedIdxs, ht]
  | cons url rest ih =>
    intro i
    by_cases ht : (0 : Int) < t
    · simp only [tcpLoop, dialedIdxs, List.filter_append, ih, if_pos ht,
        tcpProbeStep_filter_deadline]
      by_cases hd : exceptOk (env.dialResult i) = true
      · simp [ht, hd]
      · simp [ht, hd]
    · simp only [tcpLoop, List.filter_append, ih, if_neg ht,
        tcpProbeStep_filter_deadline]
      simp [ht]

lemma filter_build_map_close (l : List Nat) :
    (l.map Event.closeConn).filter isBuildEvent = [] := by
  induction l <;> simp_all [isBuildEvent]

lemma filter_deadline_map_close (l : List Nat) :
    (l.map Event.closeConn).filter isDeadlineEvent = [] := by
  induction l <;> simp_all [isDeadlineEvent]

lemma send_not_mem_map_close (l : List Nat) (j : Nat) (p : List Nat) :
    Event.send j p ∉ l.map Event.closeConn := by
  induction l <;> simp_all

/-! Claim C6 -/

/-- C6: each transport run builds one binding request and serializes it once
before the loop — the trace contains exactly one build event — and every
send event of the run carries exactly the serialized request bytes, so the
identical payload goes to every server of that transport's list and no
per-server request is ever built. -/
theorem C6_single_request :
    (∀ (env : UDPEnv) (urls : List String) (t : Int),
        udpPreLoopFails env t = false →
        ∃ tid raw, env.buildResult = .ok tid ∧ env.marshalResult tid = .ok raw ∧
          (testUDP env urls t).2.filter isBuildEvent = [Event.buildRequest tid] ∧
          (∀ j p, Event.send j p ∈ (testUDP env urls t).2 → p = raw)) ∧
    (∀ (env : TCPEnv) (urls : List String) (t : Int) (tid : TID) (raw : List Nat),
        env.buildResult = .ok tid → env.marshalResult tid = .ok raw →
        (testTCP env urls t).2.filter isBuildEvent = [Event.buildRequest tid] ∧
        (∀ j p, Event.send j p ∈ (testTCP env urls t).2 → p = raw)) := by
  constructor
  · intro env urls t hpre
    obtain ⟨tid, raw, hb, hm, -, htr⟩ := testUDP_ok_trace env urls t hpre
    refine ⟨tid, raw, hb, hm, ?_, ?_⟩
    · rw [htr]
      by_cases ht : (0 : Int) < t <;>
        simp [ht, List.filter_append, isBuildEvent, udpLoop_filter_build]
    · intro j p hp
      rw [htr] at hp
      by_cases ht : (0 : Int) < t <;> simp [ht] at hp <;>
        exact udpLoop_send_payload env tid raw urls 0 j p hp
  · intro env urls t tid raw hb hm
    obtain ⟨-, htr⟩ := testTCP_ok_trace env urls t tid raw hb hm
    constructor
    · rw [htr]
      simp [List.filter_append, isBuildEvent, tcpLoop_filter_build,
        filter_build_map_close]
    · intro j p hp
      rw [htr] at hp
      simp [send_not_mem_map_close] at hp
      exact tcpLoop_send_payload env tid raw t urls 0 j p hp

/-- C6 witness: the single-build property at concrete one-server runs in the
all-success environments. -/
theorem C6_single_request_witness :
    (testUDP udpEnvOK ["a:1"] 10).2.filter isBuildEvent = [Event.buildRequest tid0] ∧
    (testTCP tcpEnvOK ["a:1"] 10).2.filter isBuildEvent = [Event.buildRequest tid0] := by
  constructor
  · obtain ⟨tid, raw, hb, -, hf, -⟩ := C6_single_request.1 udpEnvOK ["a:1"] 10 rfl
    rw [show udpEnvOK.buildResult = Except.ok tid0 from rfl] at hb
    injection hb with h
    rw [h]
    exact hf
  · exact (C6_single_request.2 tcpEnvOK ["a:1"] 10 tid0 raw0 rfl rfl).1

/-! Claim C7 -/

/-- C7: with timeout 0 no deadline is armed anywhere (no deadline event in
either run's trace, so reads may block indefinitely); with timeout > 0 the
UDP run arms exactly one deadline of now + timeout for the whole batch, the
TCP run arms one fresh read deadline per successfully dialed connection with
that connection's now + timeout, and within an iteration the read deadline
is armed immediately after the dial. -/
theorem C7_deadline_policy :
    (∀ (env : UDPEnv) (urls : List String),
        (testUDP env urls 0).2.filter isDeadlineEvent = []) ∧
    (∀ (env : TCPEnv) (urls : List String),
        (testTCP env urls 0).2.filter isDeadlineEvent = []) ∧
    (∀ (env : UDPEnv) (urls : List String) (t : Int),
        0 < t → udpPreLoopFails env t = false →
        (testUDP env urls t).2.filter isDeadlineEvent
          = [Event.setDeadline (env.now + t)]) ∧
    (∀ (env : TCPEnv) (urls : List String) (t : Int) (tid : TID) (raw : List Nat),
        0 < t → env.buildResult = .ok tid → env.marshalResult tid = .ok raw →
        (testTCP env urls t).2.filter isDeadlineEvent
          = (dialedIdxs env 0 urls).map
              (fun k => Event.setReadDeadline k (env.nowAtDial k + t))) ∧
    (∀ (env : TCPEnv) (reqTID : TID) (reqRaw : List Nat) (t : Int) (i : Nat)
        (url : String),
        0 < t → exceptOk (env.dialResult i) = true →
        ∃ rest, (tcpProbeStep env reqTID reqRaw t i url).2.1
          = Event.dial i url
              :: Event.setReadDeadline i (env.nowAtDial i + t) :: rest) := by
  refine ⟨?_, ?_, ?_, ?_, ?_⟩
  · intro env urls
    unfold testUDP
    repeat' split
    all_goals simp_all [isDeadlineEvent, List.filter_append, udpLoop_filter_deadline]
  · intro env urls
    unfold testTCP
    repeat' split
    all_goals simp_all [isDeadlineEvent, List.filter_append, tcpLoop_filter_deadline,
      filter_deadline_map_close]
  · intro env urls t ht hpre
    obtain ⟨tid, raw, -, -, -, htr⟩ := testUDP_ok_trace env urls t hpre
    rw [htr]
    simp [ht, List.filter_append, isDeadlineEvent, udpLoop_filter_deadline]
  · intro env urls t tid raw ht hb hm
    obtain ⟨-, htr⟩ := testTCP_ok_trace env urls t tid raw hb hm
    rw [htr]
    simp [ht, List.filter_append, isDeadlineEvent, tcpLoop_filter_deadline,
      filter_deadline_map_close]
  · intro env reqTID reqRaw t i url ht hd
    rcases hdr : env.dialResult i with e | u
    · rw [hdr] at hd
      exact Bool.noConfusion hd
    · unfold tcpProbeStep
      rw [hdr]
      dsimp only
      simp only [if_pos ht]
      repeat' split
      all_goals exact ⟨_, rfl⟩

/-- C7 witness: the deadline policy at concrete one-server runs with
timeout 10. -/
theorem C7_deadline_policy_witness :
    (testUDP udpEnvOK ["a:1"] 10).2.filter isDeadlineEvent
        = [Event.setDeadline (udpEnvOK.now + 10)] ∧
    (testTCP tcpEnvOK ["a:1"] 10).2.filter isDeadlineEvent
        = (dialedIdxs tcpEnvOK 0 ["a:1"]).map
            (fun k => Event.setReadDeadline k (tcpEnvOK.nowAtDial k + 10)) ∧
    ∃ rest, (tcpProbeStep tcpEnvOK tid0 raw0 10 0 "a:1").2.1
        = Event.dial 0 "a:1"
            :: Event.setReadDeadline 0 (tcpEnvOK.nowAtDial 0 + 10) :: rest :=
  ⟨C7_deadline_policy.2.2.1 udpEnvOK ["a:1"] 10 (by decide) rfl,
    C7_deadline_policy.2.2.2.1 tcpEnvOK ["a:1"] 10 tid0 raw0 (by decide) rfl rfl,
    C7_deadline_policy.2.2.2.2 tcpEnvOK tid0 raw0 10 0 "a:1" (by decide) rfl⟩

/-! Address-family helpers. -/

lemma familyAllowed_udp4 (a : IPAddr) : familyAllowed "udp4" a = a.isV4 := rfl

lemma familyAllowed_tcp (a : IPAddr) : familyAllowed "tcp" a = true := rfl

lemma resolveAddr_udp4_none (dns : String → List IPAddr) (url : String)
    (h : ∀ a ∈ dns url, a.isV4 = false) :
    resolveAddr dns "udp4" url = none := by
  unfold resolveAddr
  have hfil : (dns url).filter (familyAllowed "udp4") = [] := by
    rw [List.filter_eq_nil_iff]
    intro a ha
    rw [familyAllowed_udp4, h a ha]
    exact Bool.false_ne_true
  rw [hfil]
  rfl

lemma resolveAddr_tcp_isSome (dns : String → List IPAddr) (url : String)
    (h : dns url ≠ []) :
    (resolveAddr dns "tcp" url).isSome = true := by
  unfold resolveAddr
  have hfil : (dns url).filter (familyAllowed "tcp") = dns url := by
    rw [List.filter_eq_self]
    intro a _
    exact familyAllowed_tcp a
  rw [hfil]
  rcases hd : dns url with _ | ⟨a, rest⟩
  · exact absurd hd h
  · rfl

lemma tcpProbeStep_resolved (env : TCPEnv) (reqTID : TID) (reqRaw : List Nat)
    (t : Int) (i : Nat) (url : String) (a : IPAddr)
    (hprod : tcpOutcomeProduced env t i = true)
    (hres : resolveAddr env.dns "tcp" url = some a) :
    ∃ r, (tcpProbeStep env reqTID reqRaw t i url).1 = some r ∧
      r.stunServerAddr = some a.render := by
  unfold tcpOutcomeProduced at hprod
  rcases hd : env.dialResult i with e | u
  · rw [hd] at hprod
    exact Bool.noConfusion hprod
  · rw [hd] at hprod
    unfold tcpProbeStep
    rw [hd]
    dsimp only
    by_cases ht : (0 : Int) < t
    · simp only [if_pos ht] at hprod ⊢
      rcases hsr : env.setReadDeadlineResult i with e | u2
      · rw [hsr] at hprod
        simp [exceptOk] at hprod
      · rw [hres]
        dsimp only
        repeat' split
        all_goals exact ⟨_, rfl, rfl⟩
    · simp only [if_neg ht] at hprod ⊢
      rw [hres]
      dsimp only
      repeat' split
      all_goals exact ⟨_, rfl, rfl⟩

/-! Claim C8 -/

/-- C8: counterexample.  The claim says endpoint resolution does not
restrict the address family on either transport.  The UDP path resolves with
network "udp4", which admits only IPv4 addresses: under a DNS oracle whose
only answer is an IPv6 address, UDP resolution fails (the outcome keeps no
resolved address) while TCP resolution of the same endpoint succeeds (the
outcome records the resolved address). -/
theorem C8_counterexample :
    resolveAddr dnsV6only "udp4" "v6.example.com:3478" = none ∧
    (resolveAddr dnsV6only "tcp" "v6.example.com:3478").isSome = true ∧
    ((udpProbeStep udpEnvV6 tid0 raw0 0 "v6.example.com:3478").1).stunServerAddr
      = none ∧
    ((tcpProbeStep tcpEnvV6 tid0 raw0 10 0 "v6.example.com:3478").1.map
        (fun r => r.stunServerAddr)) = some (some "[2001:db8::1]:3478") := by
  decide

/-- C8 amended: TCP resolution is address-family-agnostic (network "tcp"),
but UDP resolution uses network "udp4" and is restricted to IPv4: an
endpoint resolvable only to IPv6 addresses fails UDP resolution — handled as
that server's per-server failure, logged, outcome left without a resolved
address — while the same endpoint resolves on TCP and its outcome records
the resolved address. -/
theorem C8_family :
    ∀ (envU : UDPEnv) (envT : TCPEnv) (reqTID : TID) (reqRaw : List Nat)
      (t : Int) (i : Nat) (url : String),
      (∀ a ∈ envU.dns url, a.isV4 = false) →
      (∀ a ∈ envT.dns url, a.isV4 = false) → envT.dns url ≠ [] →
      tcpOutcomeProduced envT t i = true →
      (((udpProbeStep envU reqTID reqRaw i url).1).stunServerAddr = none ∧
        hasLogError i (udpProbeStep envU reqTID reqRaw i url).2 = true) ∧
      ∃ r, (tcpProbeStep envT reqTID reqRaw t i url).1 = some r ∧
        r.stunServerAddr.isSome = true := by
  intro envU envT reqTID reqRaw t i url hU hT hTne hprod
  constructor
  · have hnone := resolveAddr_udp4_none envU.dns url hU
    unfold udpProbeStep
    rw [hnone]
    exact ⟨rfl, by simp [hasLogError]⟩
  · have hsome := resolveAddr_tcp_isSome envT.dns url hTne
    rcases hres : resolveAddr envT.dns "tcp" url with _ | a
    · rw [hres] at hsome
      exact Bool.noConfusion hsome
    · obtain ⟨r, hr, hra⟩ := tcpProbeStep_resolved envT reqTID reqRaw t i url a hprod hres
      exact ⟨r, hr, by rw [hra]; rfl⟩

/-- C8 witness: the family asymmetry at the concrete IPv6-only DNS oracle. -/
theorem C8_family_witness :
    ((udpProbeStep udpEnvV6 tid0 raw0 0 "x:1").1).stunServerAddr = none ∧
    ∃ r, (tcpProbeStep tcpEnvV6 tid0 raw0 10 0 "x:1").1 = some r ∧
      r.stunServerAddr.isSome = true :=
  ⟨(C8_family udpEnvV6 tcpEnvV6 tid0 raw0 10 0 "x:1" (by decide) (by decide)
      (by decide) (by decide)).1.1,
    (C8_family udpEnvV6 tcpEnvV6 tid0 raw0 10 0 "x:1" (by decide) (by decide)
      (by decide) (by decide)).2⟩

/-! Claim C9 -/

/-- C9: on both transports the decoder is applied to the entire fixed
2000-byte receive buffer — the read data padded with its untouched
zero-filled tail, of length bufferSize for every datagram — and the byte
count returned by the receive call is discarded: the whole step is
invariant under the reported count, and the only decode-call event of a step
that reached the read carries exactly the padded buffer, never the
length-n prefix. -/
theorem C9_decode_buffer :
    (∀ (env : UDPEnv) (reqTID : TID) (reqRaw : List Nat) (i : Nat) (url : String)
        (n₁ n₂ : Nat) (src : String) (data : List Nat),
        udpProbeStep (env.withRead fun _ => .ok (n₁, src, data)) reqTID reqRaw i url
          = udpProbeStep (env.withRead fun _ => .ok (n₂, src, data)) reqTID reqRaw i url) ∧
    (∀ (env : TCPEnv) (reqTID : TID) (reqRaw : List Nat) (t : Int) (i : Nat)
        (url : String) (n₁ n₂ : Nat) (data : List Nat),
        tcpProbeStep (env.withRead fun _ => .ok (n₁, data)) reqTID reqRaw t i url
          = tcpProbeStep (env.withRead fun _ => .ok (n₂, data)) reqTID reqRaw t i url) ∧
    (∀ (data : List Nat), (fillBuffer data).length = bufferSize) ∧
    (∀ (env : UDPEnv) (reqTID : TID) (reqRaw : List Nat) (i : Nat) (url : String)
        (a : IPAddr) (n : Nat) (src : String) (data : List Nat),
        resolveAddr env.dns "udp4" url = some a →
        env.writeResult i = .ok reqRaw.length →
        env.readResult i = .ok (n, src, data) →
        Event.decodeCall i (fillBuffer data) ∈ (udpProbeStep env reqTID reqRaw i url).2 ∧
        ∀ buf, Event.decodeCall i buf ∈ (udpProbeStep env reqTID reqRaw i url).2 →
          buf = fillBuffer data) ∧
    (∀ (env : TCPEnv) (reqTID : TID) (reqRaw : List Nat) (t : Int) (i : Nat)
        (url : String) (a : IPAddr) (n : Nat) (data : List Nat),
        env.dialResult i = .ok () →
        (if 0 < t then env.setReadDeadlineResult i else .ok ()) = .ok () →
        resolveAddr env.dns "tcp" url = some a →
        env.writeResult i = .ok reqRaw.length →
        env.readResult i = .ok (n, data) →
        Event.decodeCall i (fillBuffer data) ∈ (tcpProbeStep env reqTID reqRaw t i url).2.1 ∧
        ∀ buf, Event.decodeCall i buf ∈ (tcpProbeStep env reqTID reqRaw t i url).2.1 →
          buf = fillBuffer data) := by
  have hlen2 : ∀ (l : List Nat), ¬(l.length ≠ l.length) := fun _ hh => hh rfl
  refine ⟨?_, ?_, ?_, ?_, ?_⟩
  · intro env reqTID reqRaw i url n₁ n₂ src data
    rfl
  · intro env reqTID reqRaw t i url n₁ n₂ data
    rfl
  · intro data
    simp only [fillBuffer, List.length_append, List.length_take,
      List.length_replicate, bufferSize]
    omega
  · intro env reqTID reqRaw i url a n src data hres hw hr
    unfold udpProbeStep
    rw [hres]
    dsimp only
    rw [hw]
    dsimp only
    rw [if_neg (hlen2 reqRaw), hr]
    dsimp only
    repeat' split
    all_goals refine ⟨by simp, ?_⟩
    all_goals intro buf hb
    all_goals simp_all
  · intro env reqTID reqRaw t i url a n data hd hdl hres hw hr
    unfold tcpProbeStep
    rw [hd]
    dsimp only
    rw [hdl]
    dsimp only
    rw [hres]
    dsimp only
    rw [hw]
    dsimp only
    rw [if_neg (hlen2 reqRaw), hr]
    dsimp only
    repeat' split
    all_goals refine ⟨by simp, ?_⟩
    all_goals intro buf hb
    all_goals simp_all

/-- C9 witness: the buffer discipline at the all-success environments. -/
theorem C9_decode_buffer_witness :
    (fillBuffer raw0).length = bufferSize ∧
    Event.decodeCall 0 (fillBuffer raw0) ∈ (udpProbeStep udpEnvOK tid0 raw0 0 "a:1").2 ∧
    Event.decodeCall 0 (fillBuffer raw0) ∈ (tcpProbeStep tcpEnvOK tid0 raw0 10 0 "a:1").2.1 :=
  ⟨C9_decode_buffer.2.2.1 raw0,
    (C9_decode_buffer.2.2.2.1 udpEnvOK tid0 raw0 0 "a:1" (IPAddr.v4 "198.51.100.7:3478")
      20 "198.51.100.7:3478" raw0 (by decide) rfl rfl).1,
    (C9_decode_buffer.2.2.2.2 tcpEnvOK tid0 raw0 10 0 "a:1" (IPAddr.v4 "198.51.100.7:3478")
      20 raw0 rfl rfl (by decide) rfl rfl).1⟩

/-! Claim C10 -/

lemma udpProbeStep_src_indep (env₁ env₂ : UDPEnv) (h : agreeExceptReadSrc env₁ env₂)
    (reqTID : TID) (reqRaw : List Nat) (i : Nat) (url : String) :
    udpProbeStep env₁ reqTID reqRaw i url = udpProbeStep env₂ reqTID reqRaw i url := by
  obtain ⟨-, -, -, -, -, hdns, hw, hdec, hel, hread⟩ := h
  have hi := hread i
  unfold udpProbeStep
  rw [hdns, hw, hdec, hel]
  rcases h1 : env₁.readResult i with e₁ | ⟨n₁, s₁, d₁⟩ <;>
    rcases h2 : env₂.readResult i with e₂ | ⟨n₂, s₂, d₂⟩ <;>
    rw [h1, h2] at hi <;>
    simp only [sameButSrc] at hi
  all_goals try (obtain ⟨hn, hdd⟩ := hi; subst hn; subst hdd)
  all_goals rfl

lemma udpLoop_src_indep (env₁ env₂ : UDPEnv) (h : agreeExceptReadSrc env₁ env₂)
    (reqTID : TID) (reqRaw : List Nat) :
    ∀ (urls : List String) (i : Nat),
      udpLoop env₁ reqTID reqRaw i urls = udpLoop env₂ reqTID reqRaw i urls := by
  intro urls
  induction urls with
  | nil => intro i; rfl
  | cons url rest ih =>
    intro i
    simp only [udpLoop, udpProbeStep_src_indep env₁ env₂ h reqTID reqRaw i url,
      ih (i + 1)]

/-- C10: the source address of a received UDP datagram is discarded and
never influences anything: two runs whose environments agree on every oracle
but report arbitrary different datagram source addresses produce identical
results and identical traces — in particular the datagram is processed as
the current server's response no matter which sender it came from. -/
theorem C10_source_ignored :
    ∀ (env₁ env₂ : UDPEnv) (urls : List String) (t : Int),
      agreeExceptReadSrc env₁ env₂ →
      testUDP env₁ urls t = testUDP env₂ urls t := by
  intro env₁ env₂ urls t h
  have hloop := udpLoop_src_indep env₁ env₂ h
  obtain ⟨hl, hn, hs, hb, hm, -, -, -, -, -⟩ := h
  unfold testUDP
  rw [hl, hn, hs, hb, hm]
  rcases hl2 : env₂.listenResult with e | u
  · rfl
  · dsimp only
    rcases hdl2 : (if 0 < t then env₂.setDeadlineResult else Except.ok ()) with e | u2
    · rfl
    · dsimp only
      rcases hb2 : env₂.buildResult with e | tid
      · rfl
      · dsimp only
        rcases hm2 : env₂.marshalResult tid with e | raw
        · rfl
        · dsimp only
          rw [hloop tid raw urls 0]

/-- C10 witness: two all-success runs differing only in the datagram's
reported source address coincide. -/
theorem C10_source_ignored_witness :
    testUDP (UDPEnv.withRead udpEnvOK fun _ => .ok (20, "sender-A", raw0)) ["a:1"] 10
      = testUDP (UDPEnv.withRead udpEnvOK fun _ => .ok (20, "sender-B", raw0)) ["a:1"] 10 :=
  C10_source_ignored _ _ ["a:1"] 10
    ⟨rfl, rfl, rfl, rfl, rfl, rfl, rfl, rfl, rfl, fun _ => ⟨rfl, rfl⟩⟩

end NatTest
